import Mathlib

/-!
Verification of the geometric shading core of autoshades (src/autoshades.py).

The Python code works on numpy double-precision floats.  Every value a
floating-point computation can produce is a rational number, so the code is
embedded over the rationals: all scalar arithmetic in the source (comparison,
addition, subtraction, multiplication, division) is exact on the values the
source actually manipulates, and theorems quantified over arbitrary rational
inputs cover every run of the program.  The only operations that escape the
rationals are np.cos, np.sin and np.radians (lines 76-84); the composition
degrees-to-trig is abstracted as a pair of parameters cosDeg sinDeg : Q -> Q
(their float results are again rationals), so any statement quantified over
cosDeg and sinDeg holds for the actual trigonometric routines.
-/

namespace Autoshades

/-- Three-component vector (x, y, z) standing for the length-3 numpy arrays
of the source; z is vertical height. -/
structure Vec3 where
  x : ℚ
  y : ℚ
  z : ℚ

/-- Lower bound of the per-axis slab interval: the source swaps t1 and t2
when t1 > t2 (src/autoshades.py lines 52-53) and this is the smaller one. -/
def slabLo (t1 t2 : ℚ) : ℚ :=
  if t1 > t2 then t2 else t1

/-- Upper bound of the per-axis slab interval (the larger of t1 and t2 after
the swap at src/autoshades.py lines 52-53). -/
def slabHi (t1 t2 : ℚ) : ℚ :=
  if t1 > t2 then t1 else t2

/-- Update of t_near at src/autoshades.py lines 55-56: t_near starts at
-infinity (represented by none), so the first update always replaces it;
afterwards it is replaced only when the new slab lower bound is larger. -/
def updNear (tNear : Option ℚ) (s : ℚ) : ℚ :=
  match tNear with
  | none => s
  | some a => if s > a then s else a

/-- Update of t_far at src/autoshades.py lines 57-58: t_far starts at
+infinity (represented by none) and is replaced when the new slab upper
bound is smaller. -/
def updFar (tFar : Option ℚ) (s : ℚ) : ℚ :=
  match tFar with
  | none => s
  | some a => if s < a then s else a

/-- One iteration of the slab loop of ray_intersects_cuboid
(src/autoshades.py lines 43-61) for a single axis with origin component o,
direction component d and slab bounds lo, hi.  The running t_near is none
while still -infinity and t_far is none while still +infinity; a none result
is the early `return False`.  When d = 0 the source only checks that the
origin lies inside the slab (lines 44-46); otherwise it intersects the slab
interval with the running interval and fails when the interval becomes empty
or entirely behind the origin (lines 48-61). -/
def slabAxis (o d lo hi : ℚ) (tNear tFar : Option ℚ) : Option (Option ℚ × Option ℚ) :=
  if d = 0 then
    if o < lo ∨ o > hi then none else some (tNear, tFar)
  else
    if updNear tNear (slabLo ((lo - o) / d) ((hi - o) / d)) >
        updFar tFar (slabHi ((lo - o) / d) ((hi - o) / d)) ∨
        updFar tFar (slabHi ((lo - o) / d) ((hi - o) / d)) < 0 then none
    else
      some (some (updNear tNear (slabLo ((lo - o) / d) ((hi - o) / d))),
            some (updFar tFar (slabHi ((lo - o) / d) ((hi - o) / d))))

/-- ray_intersects_cuboid (src/autoshades.py lines 38-63): the slab loop run
over the three axes in order x, y, z, starting from t_near = -infinity and
t_far = +infinity, returning False on any early exit and True when all three
axes pass.  Note that (cuboid_min[i] - ray_origin[i]) * (1 / ray_direction[i])
equals (cuboid_min[i] - ray_origin[i]) / ray_direction[i] exactly over ℚ. -/
def ray_intersects_cuboid (ray_origin ray_direction cuboid_min cuboid_max : Vec3) : Bool :=
  match slabAxis ray_origin.x ray_direction.x cuboid_min.x cuboid_max.x none none with
  | none => false
  | some (tn1, tf1) =>
    match slabAxis ray_origin.y ray_direction.y cuboid_min.y cuboid_max.y tn1 tf1 with
    | none => false
    | some (tn2, tf2) =>
      match slabAxis ray_origin.z ray_direction.z cuboid_min.z cuboid_max.z tn2 tf2 with
      | none => false
      | some _ => true

/-- Python range(a, b) over the integers: the list a, a+1, ..., b-1, empty
when b ≤ a (src/autoshades.py lines 79-80 loop over such ranges). -/
def intRange (a b : ℤ) : List ℤ :=
  (List.range (b - a).toNat).map (fun i : ℕ => a + (i : ℤ))

/-- Window bounds as configured in WINDOW_BOUNDS (src/autoshades.py lines
19-32): integer min/max corners.  Only min x, the y range and the z range are
read by the computation; max x is kept for fidelity to the data. -/
structure WindowBox where
  minX : ℤ
  minY : ℤ
  minZ : ℤ
  maxX : ℤ
  maxY : ℤ
  maxZ : ℤ

/-- Sampling accumulator of calculate_shading_requirements (src/autoshades.py
lines 66-67 and 86-89): min_z starts at +infinity (none) and max_z at
-infinity (none); total is the count of obstructed rays. -/
structure SampleAcc where
  minZ : Option ℤ
  maxZ : Option ℤ
  total : ℕ

/-- Body of the sampling loop (src/autoshades.py lines 81-89) for one grid
point p = (y, z): build the ray at origin (window_min.x, y, z) with the fixed
direction d, test it against the desk cuboid, and on a hit update min_z
(min(min_z, z), where min(+infinity, z) = z), max_z and the ray count. -/
def stepRay (d dmin dmax : Vec3) (wminX : ℤ) (acc : SampleAcc) (p : ℤ × ℤ) : SampleAcc :=
  if ray_intersects_cuboid ⟨(wminX : ℚ), (p.1 : ℚ), (p.2 : ℚ)⟩ d dmin dmax then
    ⟨some (match acc.minZ with | none => p.2 | some m => min m p.2),
     some (match acc.maxZ with | none => p.2 | some m => max m p.2),
     acc.total + 1⟩
  else acc

/-- Grid of sample points of the two nested loops at src/autoshades.py lines
79-80: y ∈ range(window_min.y, window_max.y), z ∈ range(window_min.z,
window_max.z), in loop order (y outer, z inner). -/
def gridPoints (w : WindowBox) : List (ℤ × ℤ) :=
  (intRange w.minY w.maxY).bind (fun y => (intRange w.minZ w.maxZ).map (fun z => (y, z)))

/-- Result of the whole sampling pass (src/autoshades.py lines 66-89): the
loop is a left fold of stepRay over the grid starting from
(min_z, max_z, total_rays) = (+infinity, -infinity, 0). -/
def sampleAcc (d dmin dmax : Vec3) (w : WindowBox) : SampleAcc :=
  (gridPoints w).foldl (stepRay d dmin dmax w.minX) ⟨none, none, 0⟩

/-- Conversion of the aggregates into the returned shade percentages
(src/autoshades.py lines 91-100): window_height = window_max.z - window_min.z;
with no obstructed ray the function returns 0, 0, total_rays; otherwise
top_percent = (window_max.z - max_z) / window_height when max_z is finite
(else 0) and bottom_percent = (window_max.z - min_z) / window_height when
min_z is finite (else 1).  The result triple is (top_percent, bottom_percent,
total_rays). -/
def toShadeState (w : WindowBox) (acc : SampleAcc) : ℚ × ℚ × ℕ :=
  if acc.total = 0 then (0, 0, acc.total)
  else
    ((match acc.maxZ with
      | some mz => ((w.maxZ : ℚ) - (mz : ℚ)) / ((w.maxZ : ℚ) - (w.minZ : ℚ))
      | none => 0),
     (match acc.minZ with
      | some mz => ((w.maxZ : ℚ) - (mz : ℚ)) / ((w.maxZ : ℚ) - (w.minZ : ℚ))
      | none => 1),
     acc.total)

/-- Geometric core of calculate_shading_requirements (src/autoshades.py lines
66-67 and 79-100) with the ray direction already built: sampling pass
followed by the shade-state conversion. -/
def shadingCore (d dmin dmax : Vec3) (w : WindowBox) : ℚ × ℚ × ℕ :=
  toShadeState w (sampleAcc d dmin dmax w)

/-- Module-level configuration constant WINDOW_ORIENTATION = 150
(src/autoshades.py line 11). -/
def WINDOW_ORIENTATION : ℚ := 150

/-- Relative azimuth computation of src/autoshades.py lines 69-71 with the
configured orientation as a parameter: subtract the orientation and add 360
once when the result is negative. -/
def relativeAzimuthCalc (azimuth orientation : ℚ) : ℚ :=
  if azimuth - orientation < 0 then azimuth - orientation + 360
  else azimuth - orientation

/-- Sun position record consumed by calculate_shading_requirements
(azimuth and elevation in degrees, src/autoshades.py lines 69-73). -/
structure SunPosition where
  azimuth : ℚ
  elevation : ℚ

/-- Ray direction built at src/autoshades.py lines 76-84:
(-cos(radians(relAz)), sin(radians(relAz)), -sin(radians(elevation))), with
cosDeg and sinDeg standing for the degree-input compositions np.cos ∘
np.radians and np.sin ∘ np.radians. -/
def rayDirection (cosDeg sinDeg : ℚ → ℚ) (sun : SunPosition) : Vec3 :=
  ⟨-(cosDeg (relativeAzimuthCalc sun.azimuth WINDOW_ORIENTATION)),
   sinDeg (relativeAzimuthCalc sun.azimuth WINDOW_ORIENTATION),
   -(sinDeg sun.elevation)⟩

/-- calculate_shading_requirements (src/autoshades.py lines 65-100).  The
relative azimuth at line 69 is computed from the module-level constant
WINDOW_ORIENTATION, not from the window_orientation parameter, which is
therefore unused.  Returns (top_percent, bottom_percent, total_rays,
relative_azimuth, elevation). -/
def calculate_shading_requirements (cosDeg sinDeg : ℚ → ℚ) (sun : SunPosition)
    (desk_min desk_max : Vec3) (w : WindowBox) (window_orientation : ℚ) :
    ℚ × ℚ × ℕ × ℚ × ℚ :=
  ((shadingCore (rayDirection cosDeg sinDeg sun) desk_min desk_max w).1,
   (shadingCore (rayDirection cosDeg sinDeg sun) desk_min desk_max w).2.1,
   (shadingCore (rayDirection cosDeg sinDeg sun) desk_min desk_max w).2.2,
   relativeAzimuthCalc sun.azimuth WINDOW_ORIENTATION,
   sun.elevation)

/-- Python int() applied to a rational: truncation toward zero
(src/autoshades.py lines 123-124). -/
def pyInt (q : ℚ) : ℤ :=
  if q < 0 then -(⌊-q⌋) else ⌊q⌋

/-- Per-window entry of the published shade-state mapping
(src/autoshades.py lines 122-127): top = int(top_percent * 100) and
bottom = 100 - int(bottom_percent * 100). -/
def shade_position_entry (top_percent bottom_percent : ℚ) : ℤ × ℤ :=
  (pyInt (top_percent * 100), 100 - pyInt (bottom_percent * 100))

/-- Remainder of x modulo 360 over ℚ, the representative in [0, 360). -/
def qmod360 (x : ℚ) : ℚ :=
  x - 360 * (⌊x / 360⌋ : ℤ)

/-- DESK_BOUNDS min corner: (60+12, 108, 30) (src/autoshades.py lines 14-17). -/
def DESK_BOUNDS_min : Vec3 := ⟨72, 108, 30⟩

/-- DESK_BOUNDS max corner: (122-12, 132, 54) (src/autoshades.py lines 14-17). -/
def DESK_BOUNDS_max : Vec3 := ⟨110, 132, 54⟩

/-- Window1 bounds: min (148, 98, 44), max (148, 126, 90)
(src/autoshades.py lines 20-25). -/
def Window1 : WindowBox := ⟨148, 98, 44, 148, 126, 90⟩

attribute [local semireducible] Rat.add Rat.sub Rat.mul Rat.inv

lemma forall_mem_none (P : ℚ → Prop) : ∀ a ∈ (none : Option ℚ), P a := by
  simp

lemma forall_mem_some {P : ℚ → Prop} {u : ℚ} (h : P u) : ∀ a ∈ some u, P a := by
  intro a ha
  rw [Option.mem_def, Option.some.injEq] at ha
  exact ha ▸ h

lemma slabLo_eq_min (t1 t2 : ℚ) : slabLo t1 t2 = min t1 t2 := by
  unfold slabLo
  rcases le_or_lt t1 t2 with h | h
  · rw [if_neg (not_lt.mpr h), min_eq_left h]
  · rw [if_pos h, min_eq_right h.le]

lemma slabHi_eq_max (t1 t2 : ℚ) : slabHi t1 t2 = max t1 t2 := by
  unfold slabHi
  rcases le_or_lt t1 t2 with h | h
  · rw [if_neg (not_lt.mpr h), max_eq_right h]
  · rw [if_pos h, max_eq_left h.le]

lemma updNear_le {tN : Option ℚ} {s t0 : ℚ} (hs : s ≤ t0) (hN : ∀ a ∈ tN, a ≤ t0) :
    updNear tN s ≤ t0 := by
  cases tN with
  | none => exact hs
  | some b =>
    have hb : b ≤ t0 := hN b rfl
    show (if s > b then s else b) ≤ t0
    rcases lt_or_le b s with h | h
    · rw [if_pos h]; exact hs
    · rw [if_neg (not_lt.mpr h)]; exact hb

lemma le_updFar {tF : Option ℚ} {s t0 : ℚ} (hs : t0 ≤ s) (hF : ∀ a ∈ tF, t0 ≤ a) :
    t0 ≤ updFar tF s := by
  cases tF with
  | none => exact hs
  | some b =>
    have hb : t0 ≤ b := hF b rfl
    show t0 ≤ (if s < b then s else b)
    rcases lt_or_le s b with h | h
    · rw [if_pos h]; exact hs
    · rw [if_neg (not_lt.mpr h)]; exact hb

/-- Per-axis soundness of the slab step: if the ray touches the closed slab
at some parameter t0 ≥ 0 bracketed by the running interval, the axis does not
reject and t0 stays bracketed. -/
lemma slabAxis_touch {o d lo hi t0 : ℚ} {tN tF : Option ℚ}
    (ht0 : 0 ≤ t0) (h1 : lo ≤ o + t0 * d) (h2 : o + t0 * d ≤ hi)
    (hN : ∀ a ∈ tN, a ≤ t0) (hF : ∀ a ∈ tF, t0 ≤ a) :
    ∃ tN2 tF2, slabAxis o d lo hi tN tF = some (tN2, tF2) ∧
      (∀ a ∈ tN2, a ≤ t0) ∧ (∀ a ∈ tF2, t0 ≤ a) := by
  unfold slabAxis
  by_cases hd : d = 0
  · subst hd
    rw [mul_zero, add_zero] at h1 h2
    rw [if_pos rfl, if_neg (by push_neg; exact ⟨h1, h2⟩)]
    exact ⟨tN, tF, rfl, hN, hF⟩
  · rw [if_neg hd]
    have key1 : min ((lo - o) / d) ((hi - o) / d) ≤ t0 := by
      rcases lt_or_gt_of_ne hd with hneg | hpos
      · refine le_trans (min_le_right _ _) ?_
        rw [div_le_iff_of_neg hneg]
        linarith
      · refine le_trans (min_le_left _ _) ?_
        rw [div_le_iff hpos]
        linarith
    have key2 : t0 ≤ max ((lo - o) / d) ((hi - o) / d) := by
      rcases lt_or_gt_of_ne hd with hneg | hpos
      · refine le_trans ?_ (le_max_left _ _)
        rw [le_div_iff_of_neg hneg]
        linarith
      · refine le_trans ?_ (le_max_right _ _)
        rw [le_div_iff hpos]
        linarith
    have hun : updNear tN (slabLo ((lo - o) / d) ((hi - o) / d)) ≤ t0 :=
      updNear_le (by rw [slabLo_eq_min]; exact key1) hN
    have huf : t0 ≤ updFar tF (slabHi ((lo - o) / d) ((hi - o) / d)) :=
      le_updFar (by rw [slabHi_eq_max]; exact key2) hF
    rw [if_neg (by push_neg; exact ⟨le_trans hun huf, le_trans ht0 huf⟩)]
    exact ⟨_, _, rfl, forall_mem_some hun, forall_mem_some huf⟩

/-- Soundness of ray_intersects_cuboid for touching rays: a point of the
closed box reached at a forward parameter t0 forces the test to accept. -/
lemma ray_intersects_of_touch (o d cmin cmax : Vec3) (t0 : ℚ) (ht0 : 0 ≤ t0)
    (hx1 : cmin.x ≤ o.x + t0 * d.x) (hx2 : o.x + t0 * d.x ≤ cmax.x)
    (hy1 : cmin.y ≤ o.y + t0 * d.y) (hy2 : o.y + t0 * d.y ≤ cmax.y)
    (hz1 : cmin.z ≤ o.z + t0 * d.z) (hz2 : o.z + t0 * d.z ≤ cmax.z) :
    ray_intersects_cuboid o d cmin cmax = true := by
  obtain ⟨tN1, tF1, e1, hN1, hF1⟩ :=
    slabAxis_touch ht0 hx1 hx2 (forall_mem_none (fun a => a ≤ t0))
      (forall_mem_none (fun a => t0 ≤ a))
  obtain ⟨tN2, tF2, e2, hN2, hF2⟩ := slabAxis_touch ht0 hy1 hy2 hN1 hF1
  obtain ⟨tN3, tF3, e3, hN3, hF3⟩ := slabAxis_touch ht0 hz1 hz2 hN2 hF2
  simp only [ray_intersects_cuboid, e1, e2, e3]

/-- Claim C4: for every axis-aligned box and every ray whose origin lies
strictly inside the box (min strictly below origin strictly below max on all
three axes), ray_intersects_cuboid returns true for any direction vector,
including directions with zero components. -/
theorem ray_intersects_of_origin_inside (o d cmin cmax : Vec3)
    (hx1 : cmin.x < o.x) (hx2 : o.x < cmax.x)
    (hy1 : cmin.y < o.y) (hy2 : o.y < cmax.y)
    (hz1 : cmin.z < o.z) (hz2 : o.z < cmax.z) :
    ray_intersects_cuboid o d cmin cmax = true := by
  refine ray_intersects_of_touch o d cmin cmax 0 le_rfl ?_ ?_ ?_ ?_ ?_ ?_ <;>
    rw [zero_mul, add_zero]
  exacts [hx1.le, hx2.le, hy1.le, hy2.le, hz1.le, hz2.le]

/-- Witness for C4: the origin (1,1,1) lies strictly inside the box
[0,2]^3 and the all-zero direction vector is accepted. -/
theorem ray_intersects_of_origin_inside_witness :
    ray_intersects_cuboid ⟨1, 1, 1⟩ ⟨0, 0, 0⟩ ⟨0, 0, 0⟩ ⟨2, 2, 2⟩ = true :=
  ray_intersects_of_origin_inside ⟨1, 1, 1⟩ ⟨0, 0, 0⟩ ⟨0, 0, 0⟩ ⟨2, 2, 2⟩
    (by decide) (by decide) (by decide) (by decide) (by decide) (by decide)

/-- Claim C5: the intersection test is boundary-inclusive; every ray that
touches the closed box at some forward parameter t0 ≥ 0 (in particular a ray
exactly grazing a face, which touches the boundary without entering the
interior) returns true. -/
theorem ray_intersects_boundary_inclusive (o d cmin cmax : Vec3) (t0 : ℚ)
    (ht0 : 0 ≤ t0)
    (hx1 : cmin.x ≤ o.x + t0 * d.x) (hx2 : o.x + t0 * d.x ≤ cmax.x)
    (hy1 : cmin.y ≤ o.y + t0 * d.y) (hy2 : o.y + t0 * d.y ≤ cmax.y)
    (hz1 : cmin.z ≤ o.z + t0 * d.z) (hz2 : o.z + t0 * d.z ≤ cmax.z) :
    ray_intersects_cuboid o d cmin cmax = true :=
  ray_intersects_of_touch o d cmin cmax t0 ht0 hx1 hx2 hy1 hy2 hz1 hz2

/-- Witness for C5: the ray from (-1,0,1) with direction (1,0,0) grazes the
top edge of the unit box [0,1]^3 (it touches (0,0,1) at t0 = 1, staying on
the boundary) and is accepted. -/
theorem ray_intersects_boundary_inclusive_witness :
    ray_intersects_cuboid ⟨-1, 0, 1⟩ ⟨1, 0, 0⟩ ⟨0, 0, 0⟩ ⟨1, 1, 1⟩ = true :=
  ray_intersects_boundary_inclusive ⟨-1, 0, 1⟩ ⟨1, 0, 0⟩ ⟨0, 0, 0⟩ ⟨1, 1, 1⟩ 1
    (by decide) (by decide) (by decide) (by decide) (by decide) (by decide)
    (by decide)

lemma mem_intRange {a b z : ℤ} (h : z ∈ intRange a b) : a ≤ z ∧ z < b := by
  unfold intRange at h
  obtain ⟨i, hi, rfl⟩ := List.mem_map.mp h
  rw [List.mem_range] at hi
  omega

lemma mem_gridPoints {w : WindowBox} {p : ℤ × ℤ} (h : p ∈ gridPoints w) :
    w.minZ ≤ p.2 ∧ p.2 < w.maxZ := by
  unfold gridPoints at h
  simp only [List.mem_bind, List.mem_map] at h
  obtain ⟨y, hy, z, hz, rfl⟩ := h
  exact mem_intRange hz

/-- Invariant of the sampling accumulator for a z-range [lo, hi): either no
ray has been obstructed yet (both extrema at their infinite sentinels, count
zero) or both extrema are finite, ordered and within the sampled z-range. -/
def accBounded (lo hi : ℤ) (acc : SampleAcc) : Prop :=
  (acc.minZ = none ∧ acc.maxZ = none ∧ acc.total = 0) ∨
  (∃ a b, acc.minZ = some a ∧ acc.maxZ = some b ∧ a ≤ b ∧ lo ≤ a ∧ b < hi)

lemma stepRay_accBounded {lo hi : ℤ} {d dmin dmax : Vec3} {wminX : ℤ}
    {acc : SampleAcc} {p : ℤ × ℤ} (hp1 : lo ≤ p.2) (hp2 : p.2 < hi)
    (h : accBounded lo hi acc) : accBounded lo hi (stepRay d dmin dmax wminX acc p) := by
  unfold stepRay
  split
  · rcases h with ⟨h1, h2, -⟩ | ⟨a, b, h1, h2, hab, hla, hbh⟩
    · simp only [h1, h2]
      exact Or.inr ⟨p.2, p.2, rfl, rfl, le_refl _, hp1, hp2⟩
    · simp only [h1, h2]
      exact Or.inr ⟨min a p.2, max b p.2, rfl, rfl,
        le_trans (min_le_left _ _) (le_trans hab (le_max_left _ _)),
        le_min hla hp1, max_lt hbh hp2⟩
  · exact h

lemma foldl_stepRay_accBounded {lo hi : ℤ} (d dmin dmax : Vec3) (wminX : ℤ)
    (l : List (ℤ × ℤ)) :
    ∀ acc : SampleAcc, (∀ p ∈ l, lo ≤ p.2 ∧ p.2 < hi) → accBounded lo hi acc →
      accBounded lo hi (List.foldl (stepRay d dmin dmax wminX) acc l) := by
  induction l with
  | nil => exact fun acc _ h => h
  | cons p l ih =>
    intro acc hl h
    rw [List.foldl_cons]
    exact ih _ (fun q hq => hl q (List.mem_cons_of_mem _ hq))
      (stepRay_accBounded (hl p (List.mem_cons_self _ _)).1
        (hl p (List.mem_cons_self _ _)).2 h)

lemma sampleAcc_bounded (d dmin dmax : Vec3) (w : WindowBox) :
    accBounded w.minZ w.maxZ (sampleAcc d dmin dmax w) :=
  foldl_stepRay_accBounded d dmin dmax w.minX (gridPoints w) _
    (fun _ hp => mem_gridPoints hp) (Or.inl ⟨rfl, rfl, rfl⟩)

lemma toShadeState_total (w : WindowBox) (acc : SampleAcc) :
    (toShadeState w acc).2.2 = acc.total := by
  unfold toShadeState
  split
  · rfl
  · rfl

lemma toShadeState_zero (w : WindowBox) (acc : SampleAcc) (h : acc.total = 0) :
    toShadeState w acc = (0, 0, 0) := by
  unfold toShadeState
  rw [if_pos h, h]

lemma shadingCore_zero (d dmin dmax : Vec3) (w : WindowBox)
    (h : (shadingCore d dmin dmax w).2.2 = 0) :
    shadingCore d dmin dmax w = (0, 0, 0) := by
  have ht : (sampleAcc d dmin dmax w).total = 0 := by
    rw [← toShadeState_total w (sampleAcc d dmin dmax w)]
    exact h
  exact toShadeState_zero w _ ht

lemma toShadeState_bounds {w : WindowBox} {acc : SampleAcc}
    (hacc : accBounded w.minZ w.maxZ acc) (h : acc.total ≠ 0) :
    0 < (toShadeState w acc).1 ∧ (toShadeState w acc).1 ≤ 1 ∧
    0 < (toShadeState w acc).2.1 ∧ (toShadeState w acc).2.1 ≤ 1 ∧
    (toShadeState w acc).1 ≤ (toShadeState w acc).2.1 := by
  rcases hacc with ⟨-, -, h0⟩ | ⟨a, b, h1, h2, hab, hla, hbh⟩
  · exact absurd h0 h
  · have e1 : (toShadeState w acc).1 =
        ((w.maxZ : ℚ) - (b : ℚ)) / ((w.maxZ : ℚ) - (w.minZ : ℚ)) := by
      unfold toShadeState
      rw [if_neg h, h2]
    have e2 : (toShadeState w acc).2.1 =
        ((w.maxZ : ℚ) - (a : ℚ)) / ((w.maxZ : ℚ) - (w.minZ : ℚ)) := by
      unfold toShadeState
      rw [if_neg h, h1]
    have hc1 : (a : ℚ) ≤ (b : ℚ) := by exact_mod_cast hab
    have hc2 : ((w.minZ : ℤ) : ℚ) ≤ (a : ℚ) := by exact_mod_cast hla
    have hc3 : (b : ℚ) < ((w.maxZ : ℤ) : ℚ) := by exact_mod_cast hbh
    have hden : (0 : ℚ) < (w.maxZ : ℚ) - (w.minZ : ℚ) := by linarith
    refine ⟨?_, ?_, ?_, ?_, ?_⟩
    · rw [e1]; exact div_pos (by linarith) hden
    · rw [e1, div_le_one hden]; linarith
    · rw [e2]; exact div_pos (by linarith) hden
    · rw [e2, div_le_one hden]; linarith
    · rw [e1, e2, div_le_div_iff hden hden]
      nlinarith

lemma shadingCore_bounds (d dmin dmax : Vec3) (w : WindowBox)
    (h : (shadingCore d dmin dmax w).2.2 ≠ 0) :
    0 < (shadingCore d dmin dmax w).1 ∧ (shadingCore d dmin dmax w).1 ≤ 1 ∧
    0 < (shadingCore d dmin dmax w).2.1 ∧ (shadingCore d dmin dmax w).2.1 ≤ 1 ∧
    (shadingCore d dmin dmax w).1 ≤ (shadingCore d dmin dmax w).2.1 := by
  have ht : (sampleAcc d dmin dmax w).total ≠ 0 := by
    rw [← toShadeState_total w (sampleAcc d dmin dmax w)]
    exact h
  exact toShadeState_bounds (sampleAcc_bounded d dmin dmax w) ht

lemma shadingCore_top_le_bottom (d dmin dmax : Vec3) (w : WindowBox) :
    (shadingCore d dmin dmax w).1 ≤ (shadingCore d dmin dmax w).2.1 := by
  by_cases h : (shadingCore d dmin dmax w).2.2 = 0
  · rw [shadingCore_zero d dmin dmax w h]
  · exact (shadingCore_bounds d dmin dmax w h).2.2.2.2

lemma intRange_eq_nil {a b : ℤ} (h : b ≤ a) : intRange a b = [] := by
  unfold intRange
  have h0 : (b - a).toNat = 0 := by omega
  rw [h0]
  rfl

lemma gridPoints_eq_nil {w : WindowBox} (h : w.maxZ ≤ w.minZ) : gridPoints w = [] := by
  unfold gridPoints
  rw [intRange_eq_nil h]
  simp

/-- Claim C1: whenever the sampling pass counts zero obstructed rays, the
computation returns topPercent = 0 and bottomPercent = 0, regardless of the
window geometry. -/
theorem shade_state_zero_when_no_obstruction (cosDeg sinDeg : ℚ → ℚ)
    (sun : SunPosition) (desk_min desk_max : Vec3) (w : WindowBox) (orientation : ℚ)
    (h : (calculate_shading_requirements cosDeg sinDeg sun desk_min desk_max w orientation).2.2.1 = 0) :
    (calculate_shading_requirements cosDeg sinDeg sun desk_min desk_max w orientation).1 = 0 ∧
    (calculate_shading_requirements cosDeg sinDeg sun desk_min desk_max w orientation).2.1 = 0 := by
  have h0 : shadingCore (rayDirection cosDeg sinDeg sun) desk_min desk_max w = (0, 0, 0) :=
    shadingCore_zero _ _ _ _ h
  constructor
  · show (shadingCore (rayDirection cosDeg sinDeg sun) desk_min desk_max w).1 = 0
    rw [h0]
  · show (shadingCore (rayDirection cosDeg sinDeg sun) desk_min desk_max w).2.1 = 0
    rw [h0]

/-- Witness for C1: a one-sample window behind which the desk lies in the
opposite direction of the ray; no ray is obstructed and both percentages are
zero. -/
theorem shade_state_zero_when_no_obstruction_witness :
    (calculate_shading_requirements (fun _ => -1) (fun _ => 0) ⟨150, 30⟩
      ⟨0, 0, 0⟩ ⟨1, 1, 1⟩ ⟨2, 0, 0, 2, 1, 1⟩ 150).2.2.1 = 0 ∧
    ((calculate_shading_requirements (fun _ => -1) (fun _ => 0) ⟨150, 30⟩
      ⟨0, 0, 0⟩ ⟨1, 1, 1⟩ ⟨2, 0, 0, 2, 1, 1⟩ 150).1 = 0 ∧
     (calculate_shading_requirements (fun _ => -1) (fun _ => 0) ⟨150, 30⟩
      ⟨0, 0, 0⟩ ⟨1, 1, 1⟩ ⟨2, 0, 0, 2, 1, 1⟩ 150).2.1 = 0) :=
  ⟨by decide, shade_state_zero_when_no_obstruction _ _ _ _ _ _ _ (by decide)⟩

/-- Claim C2: for every sun angle (any degree-trig values), obstacle box and
integer-bounded window box with at least one obstructed sample, both returned
percentages lie in [0, 1]. -/
theorem shade_percentages_in_unit_interval (cosDeg sinDeg : ℚ → ℚ)
    (sun : SunPosition) (desk_min desk_max : Vec3) (w : WindowBox) (orientation : ℚ)
    (h : (calculate_shading_requirements cosDeg sinDeg sun desk_min desk_max w orientation).2.2.1 ≠ 0) :
    0 ≤ (calculate_shading_requirements cosDeg sinDeg sun desk_min desk_max w orientation).1 ∧
    (calculate_shading_requirements cosDeg sinDeg sun desk_min desk_max w orientation).1 ≤ 1 ∧
    0 ≤ (calculate_shading_requirements cosDeg sinDeg sun desk_min desk_max w orientation).2.1 ∧
    (calculate_shading_requirements cosDeg sinDeg sun desk_min desk_max w orientation).2.1 ≤ 1 := by
  have hb := shadingCore_bounds (rayDirection cosDeg sinDeg sun) desk_min desk_max w h
  exact ⟨le_of_lt hb.1, hb.2.1, le_of_lt hb.2.2.1, hb.2.2.2.1⟩

/-- Witness for C2: a one-sample window with the desk directly behind it;
the single ray is obstructed and both percentages equal 1. -/
theorem shade_percentages_in_unit_interval_witness :
    (calculate_shading_requirements (fun _ => 1) (fun _ => 0) ⟨150, 30⟩
      ⟨0, 0, 0⟩ ⟨1, 1, 1⟩ ⟨2, 0, 0, 2, 1, 1⟩ 150).2.2.1 ≠ 0 ∧
    (0 ≤ (calculate_shading_requirements (fun _ => 1) (fun _ => 0) ⟨150, 30⟩
      ⟨0, 0, 0⟩ ⟨1, 1, 1⟩ ⟨2, 0, 0, 2, 1, 1⟩ 150).1 ∧
     (calculate_shading_requirements (fun _ => 1) (fun _ => 0) ⟨150, 30⟩
      ⟨0, 0, 0⟩ ⟨1, 1, 1⟩ ⟨2, 0, 0, 2, 1, 1⟩ 150).1 ≤ 1 ∧
     0 ≤ (calculate_shading_requirements (fun _ => 1) (fun _ => 0) ⟨150, 30⟩
      ⟨0, 0, 0⟩ ⟨1, 1, 1⟩ ⟨2, 0, 0, 2, 1, 1⟩ 150).2.1 ∧
     (calculate_shading_requirements (fun _ => 1) (fun _ => 0) ⟨150, 30⟩
      ⟨0, 0, 0⟩ ⟨1, 1, 1⟩ ⟨2, 0, 0, 2, 1, 1⟩ 150).2.1 ≤ 1) :=
  ⟨by decide, shade_percentages_in_unit_interval _ _ _ _ _ _ _ (by decide)⟩

/-- Counterexample for C3: at a window whose height is negative (min z = 90
above max z = 44) the computation does not fail; it returns the numeric shade
state topPercent = 0, bottomPercent = 0 with zero obstructed rays.  No
InvalidGeometry error exists anywhere in the code. -/
theorem invalid_geometry_counterexample :
    shadingCore ⟨-1, 0, -(1/2)⟩ DESK_BOUNDS_min DESK_BOUNDS_max
      ⟨148, 98, 90, 148, 126, 44⟩ = (0, 0, 0) := by
  decide

/-- Claim C3 amended: if the window height (window.max.z - window.min.z) is
≤ 0, the sampling grid is empty, so the computation returns the numeric
state topPercent = 0, bottomPercent = 0 with obstructedRayCount = 0 instead
of failing with an error. -/
theorem degenerate_window_returns_zero_state (d dmin dmax : Vec3) (w : WindowBox)
    (h : w.maxZ - w.minZ ≤ 0) :
    shadingCore d dmin dmax w = (0, 0, 0) := by
  have hg : gridPoints w = [] := gridPoints_eq_nil (by omega)
  have hs : sampleAcc d dmin dmax w = ⟨none, none, 0⟩ := by
    unfold sampleAcc
    rw [hg]
    rfl
  exact toShadeState_zero w _ (by rw [hs])

/-- Witness for the amended C3: a window of height -3 yields the numeric
zero state. -/
theorem degenerate_window_returns_zero_state_witness :
    ((⟨0, 0, 5, 0, 3, 2⟩ : WindowBox).maxZ - (⟨0, 0, 5, 0, 3, 2⟩ : WindowBox).minZ ≤ 0) ∧
    shadingCore ⟨1, 2, 3⟩ ⟨0, 0, 0⟩ ⟨1, 1, 1⟩ ⟨0, 0, 5, 0, 3, 2⟩ = (0, 0, 0) :=
  ⟨by decide, degenerate_window_returns_zero_state ⟨1, 2, 3⟩ ⟨0, 0, 0⟩ ⟨1, 1, 1⟩
    ⟨0, 0, 5, 0, 3, 2⟩ (by decide)⟩

/-- Counterexample for C7: there is no input at all (any degree-trig values,
sun angle, obstacle box, window box, orientation) with at least one
obstructed ray and topPercent > bottomPercent; the claimed witness input
cannot exist. -/
theorem top_gt_bottom_impossible :
    ¬ ∃ (cosDeg sinDeg : ℚ → ℚ) (sun : SunPosition) (desk_min desk_max : Vec3)
        (w : WindowBox) (orientation : ℚ),
        0 < (calculate_shading_requirements cosDeg sinDeg sun desk_min desk_max w orientation).2.2.1 ∧
        (calculate_shading_requirements cosDeg sinDeg sun desk_min desk_max w orientation).2.1 <
          (calculate_shading_requirements cosDeg sinDeg sun desk_min desk_max w orientation).1 := by
  rintro ⟨cosDeg, sinDeg, sun, desk_min, desk_max, w, orientation, -, hlt⟩
  exact absurd (shadingCore_top_le_bottom (rayDirection cosDeg sinDeg sun) desk_min desk_max w)
    (not_le.mpr hlt)

/-- Claim C7 amended: topPercent ≤ bottomPercent holds for every input (with
zero obstructed rays both percentages are 0, otherwise the tracked minimum
obstructed height never exceeds the maximum). -/
theorem top_le_bottom_always (cosDeg sinDeg : ℚ → ℚ) (sun : SunPosition)
    (desk_min desk_max : Vec3) (w : WindowBox) (orientation : ℚ) :
    (calculate_shading_requirements cosDeg sinDeg sun desk_min desk_max w orientation).1 ≤
      (calculate_shading_requirements cosDeg sinDeg sun desk_min desk_max w orientation).2.1 :=
  shadingCore_top_le_bottom (rayDirection cosDeg sinDeg sun) desk_min desk_max w

/-- Claim C6: when the sun azimuth and the configured window orientation are
compass bearings in [0, 360), the derived relative azimuth equals
(azimuth - orientation) mod 360 and lies in [0, 360). -/
theorem relative_azimuth_mod360 (azimuth orientation : ℚ)
    (h1 : 0 ≤ azimuth) (h2 : azimuth < 360) (h3 : 0 ≤ orientation) (h4 : orientation < 360) :
    relativeAzimuthCalc azimuth orientation = qmod360 (azimuth - orientation) ∧
    0 ≤ relativeAzimuthCalc azimuth orientation ∧
    relativeAzimuthCalc azimuth orientation < 360 := by
  unfold relativeAzimuthCalc qmod360
  rcases lt_or_le (azimuth - orientation) 0 with hneg | hpos
  · have hfloor : ⌊(azimuth - orientation) / 360⌋ = -1 := by
      rw [Int.floor_eq_iff]
      constructor
      · push_cast
        rw [le_div_iff (by norm_num : (0 : ℚ) < 360)]
        linarith
      · push_cast
        rw [div_lt_iff (by norm_num : (0 : ℚ) < 360)]
        linarith
    rw [if_pos hneg, hfloor]
    refine ⟨by push_cast; ring, by linarith, by linarith⟩
  · have hfloor : ⌊(azimuth - orientation) / 360⌋ = 0 := by
      rw [Int.floor_eq_iff]
      constructor
      · push_cast
        exact div_nonneg hpos (by norm_num)
      · push_cast
        rw [div_lt_iff (by norm_num : (0 : ℚ) < 360)]
        linarith
    rw [if_neg (not_lt.mpr hpos), hfloor]
    refine ⟨by push_cast; ring, by linarith, by linarith⟩

/-- Witness for C6: azimuth 10, orientation 150 gives relative azimuth 220,
equal to (10 - 150) mod 360 and inside [0, 360). -/
theorem relative_azimuth_mod360_witness :
    relativeAzimuthCalc 10 150 = qmod360 (10 - 150) ∧
    0 ≤ relativeAzimuthCalc 10 150 ∧ relativeAzimuthCalc 10 150 < 360 :=
  relative_azimuth_mod360 10 150 (by norm_num) (by norm_num) (by norm_num)
    (by norm_num)

lemma mem_intRange_of {a b z : ℤ} (h1 : a ≤ z) (h2 : z < b) : z ∈ intRange a b := by
  unfold intRange
  refine List.mem_map.mpr ⟨(z - a).toNat, ?_, by omega⟩
  rw [List.mem_range]
  omega

lemma mem_gridPoints_of {w : WindowBox} {y z : ℤ} (hy1 : w.minY ≤ y) (hy2 : y < w.maxY)
    (hz1 : w.minZ ≤ z) (hz2 : z < w.maxZ) : (y, z) ∈ gridPoints w := by
  unfold gridPoints
  exact List.mem_bind.mpr ⟨y, mem_intRange_of hy1 hy2,
    List.mem_map.mpr ⟨z, mem_intRange_of hz1 hz2, rfl⟩⟩

lemma stepRay_total_le {d dmin dmax : Vec3} {wminX : ℤ} (acc : SampleAcc) (q : ℤ × ℤ) :
    acc.total ≤ (stepRay d dmin dmax wminX acc q).total := by
  unfold stepRay
  split
  · exact Nat.le_succ _
  · exact le_rfl

lemma foldl_total_le (d dmin dmax : Vec3) (wminX : ℤ) (l : List (ℤ × ℤ)) :
    ∀ acc : SampleAcc, acc.total ≤ (List.foldl (stepRay d dmin dmax wminX) acc l).total := by
  induction l with
  | nil => exact fun _ => le_rfl
  | cons q l ih =>
    intro acc
    rw [List.foldl_cons]
    exact le_trans (stepRay_total_le acc q) (ih _)

lemma stepRay_maxZ_mono {d dmin dmax : Vec3} {wminX : ℤ} (acc : SampleAcc) (q : ℤ × ℤ)
    {b : ℤ} (h : acc.maxZ = some b) :
    ∃ b1, b ≤ b1 ∧ (stepRay d dmin dmax wminX acc q).maxZ = some b1 := by
  unfold stepRay
  split
  · exact ⟨max b q.2, le_max_left _ _, by simp only [h]⟩
  · exact ⟨b, le_rfl, h⟩

lemma foldl_maxZ_mono (d dmin dmax : Vec3) (wminX : ℤ) (l : List (ℤ × ℤ)) :
    ∀ (acc : SampleAcc) (b : ℤ), acc.maxZ = some b →
      ∃ b2, b ≤ b2 ∧ (List.foldl (stepRay d dmin dmax wminX) acc l).maxZ = some b2 := by
  induction l with
  | nil => exact fun _ b h => ⟨b, le_rfl, h⟩
  | cons q l ih =>
    intro acc b h
    obtain ⟨b1, hb1, h1⟩ := stepRay_maxZ_mono acc q h
    obtain ⟨b2, hb2, h2⟩ := ih _ b1 h1
    exact ⟨b2, le_trans hb1 hb2, by rw [List.foldl_cons]; exact h2⟩

lemma stepRay_maxZ_hit {d dmin dmax : Vec3} {wminX : ℤ} (acc : SampleAcc) (p : ℤ × ℤ)
    (hhit : ray_intersects_cuboid ⟨(wminX : ℚ), (p.1 : ℚ), (p.2 : ℚ)⟩ d dmin dmax = true) :
    ∃ b1, p.2 ≤ b1 ∧ (stepRay d dmin dmax wminX acc p).maxZ = some b1 ∧
      1 ≤ (stepRay d dmin dmax wminX acc p).total := by
  unfold stepRay
  rw [if_pos hhit]
  cases h : acc.maxZ with
  | none =>
    refine ⟨p.2, le_rfl, ?_, Nat.le_add_left 1 acc.total⟩
    simp only [h]
  | some m =>
    refine ⟨max m p.2, le_max_right _ _, ?_, Nat.le_add_left 1 acc.total⟩
    simp only [h]

/-- A sampled grid point whose ray hits the obstacle forces the fold to end
with a finite tracked maximum at least that height and a positive ray
count. -/
lemma foldl_hit (d dmin dmax : Vec3) (wminX : ℤ) (l : List (ℤ × ℤ)) :
    ∀ (acc : SampleAcc) (p : ℤ × ℤ), p ∈ l →
      ray_intersects_cuboid ⟨(wminX : ℚ), (p.1 : ℚ), (p.2 : ℚ)⟩ d dmin dmax = true →
      ∃ b2, p.2 ≤ b2 ∧ (List.foldl (stepRay d dmin dmax wminX) acc l).maxZ = some b2 ∧
        1 ≤ (List.foldl (stepRay d dmin dmax wminX) acc l).total := by
  induction l with
  | nil => exact fun _ p hp _ => absurd hp (List.not_mem_nil p)
  | cons q l ih =>
    intro acc p hp hhit
    rw [List.foldl_cons]
    rcases List.mem_cons.mp hp with rfl | hp2
    · obtain ⟨b1, hb1, h1, ht1⟩ := stepRay_maxZ_hit acc p hhit
      obtain ⟨b2, hb2, h2⟩ := foldl_maxZ_mono d dmin dmax wminX l _ b1 h1
      exact ⟨b2, le_trans hb1 hb2, h2, le_trans ht1 (foldl_total_le d dmin dmax wminX l _)⟩
    · exact ih _ p hp2 hhit

/-- A grid sample strictly above the window bottom whose ray hits the
obstacle yields a positive ray count and a topPercent strictly inside
(0, 1). -/
lemma shadingCore_strict (d dmin dmax : Vec3) (w : WindowBox) (p : ℤ × ℤ)
    (hp : p ∈ gridPoints w)
    (hhit : ray_intersects_cuboid ⟨(w.minX : ℚ), (p.1 : ℚ), (p.2 : ℚ)⟩ d dmin dmax = true)
    (hz : w.minZ < p.2) :
    (shadingCore d dmin dmax w).2.2 ≠ 0 ∧
    0 < (shadingCore d dmin dmax w).1 ∧ (shadingCore d dmin dmax w).1 < 1 := by
  obtain ⟨b2, hb2, hmax, htot⟩ :=
    foldl_hit d dmin dmax w.minX (gridPoints w) ⟨none, none, 0⟩ p hp hhit
  have hmax2 : (sampleAcc d dmin dmax w).maxZ = some b2 := hmax
  have htot2 : 1 ≤ (sampleAcc d dmin dmax w).total := htot
  have htotal_ne : (sampleAcc d dmin dmax w).total ≠ 0 := by omega
  have hshade_ne : (shadingCore d dmin dmax w).2.2 ≠ 0 := by
    have he : (shadingCore d dmin dmax w).2.2 = (sampleAcc d dmin dmax w).total :=
      toShadeState_total w (sampleAcc d dmin dmax w)
    rw [he]
    exact htotal_ne
  rcases sampleAcc_bounded d dmin dmax w with ⟨-, hm, -⟩ | ⟨a, b, h1, h2, hab, hla, hbh⟩
  · rw [hmax2] at hm
    exact Option.noConfusion hm
  · have hbb : b = b2 := by
      rw [h2] at hmax2
      exact Option.some_inj.mp hmax2
    subst hbb
    have e1 : (shadingCore d dmin dmax w).1 =
        ((w.maxZ : ℚ) - (b : ℚ)) / ((w.maxZ : ℚ) - (w.minZ : ℚ)) := by
      unfold shadingCore toShadeState
      rw [if_neg htotal_ne, h2]
    have hc3 : (b : ℚ) < ((w.maxZ : ℤ) : ℚ) := by exact_mod_cast hbh
    have hc4 : ((w.minZ : ℤ) : ℚ) < (b : ℚ) := by
      exact_mod_cast lt_of_lt_of_le hz hb2
    have hden : (0 : ℚ) < (w.maxZ : ℚ) - (w.minZ : ℚ) := by linarith
    refine ⟨hshade_ne, ?_, ?_⟩
    · rw [e1]
      exact div_pos (by linarith) hden
    · rw [e1, div_lt_one hden]
      linarith

/-- Claim C8: with the desk box min (72,108,30) / max (110,132,54), the
window min (148,98,44) / max (148,126,90) and the ray direction (-1,0,-1/2)
arising from relative azimuth 0 and elevation 30 degrees, the sampled grid
ray at (y,z) = (108,89) intersects the desk box and the resulting topPercent
is strictly between 0 and 1. -/
theorem desk_scenario_partial_shade :
    ray_intersects_cuboid ⟨148, 108, 89⟩ ⟨-1, 0, -(1/2)⟩ DESK_BOUNDS_min DESK_BOUNDS_max = true ∧
    ((108 : ℤ), (89 : ℤ)) ∈ gridPoints Window1 ∧
    0 < (shadingCore ⟨-1, 0, -(1/2)⟩ DESK_BOUNDS_min DESK_BOUNDS_max Window1).1 ∧
    (shadingCore ⟨-1, 0, -(1/2)⟩ DESK_BOUNDS_min DESK_BOUNDS_max Window1).1 < 1 := by
  have hmem : ((108 : ℤ), (89 : ℤ)) ∈ gridPoints Window1 :=
    mem_gridPoints_of (by decide) (by decide) (by decide) (by decide)
  have hhit : ray_intersects_cuboid
      ⟨(Window1.minX : ℚ), (((108 : ℤ), (89 : ℤ)).1 : ℚ), (((108 : ℤ), (89 : ℤ)).2 : ℚ)⟩
      ⟨-1, 0, -(1/2)⟩ DESK_BOUNDS_min DESK_BOUNDS_max = true := by decide
  obtain ⟨-, h0, h1⟩ := shadingCore_strict ⟨-1, 0, -(1/2)⟩ DESK_BOUNDS_min DESK_BOUNDS_max
    Window1 ((108 : ℤ), (89 : ℤ)) hmem hhit (by decide)
  exact ⟨by decide, hmem, h0, h1⟩

/-- Claim C9: the result of calculate_shading_requirements is independent of
its window_orientation argument (the code reads the module-level
WINDOW_ORIENTATION constant instead); two calls differing only in that
parameter return identical results. -/
theorem orientation_argument_ignored (cosDeg sinDeg : ℚ → ℚ) (sun : SunPosition)
    (desk_min desk_max : Vec3) (w : WindowBox) (orientation1 orientation2 : ℚ) :
    calculate_shading_requirements cosDeg sinDeg sun desk_min desk_max w orientation1 =
      calculate_shading_requirements cosDeg sinDeg sun desk_min desk_max w orientation2 :=
  rfl

/-- Claim C10: the published per-window entry is
(floor(topPercent * 100), 100 - floor(bottomPercent * 100)); with both
percentages in [0, 1], both published values are integers in [0, 100], and a
window with no obstructed rays is published as (0, 100). -/
theorem published_positions_formula :
    (∀ tp bp : ℚ, 0 ≤ tp → tp ≤ 1 → 0 ≤ bp → bp ≤ 1 →
      (shade_position_entry tp bp).1 = ⌊tp * 100⌋ ∧
      (shade_position_entry tp bp).2 = 100 - ⌊bp * 100⌋ ∧
      0 ≤ (shade_position_entry tp bp).1 ∧ (shade_position_entry tp bp).1 ≤ 100 ∧
      0 ≤ (shade_position_entry tp bp).2 ∧ (shade_position_entry tp bp).2 ≤ 100) ∧
    (∀ (d dmin dmax : Vec3) (w : WindowBox),
      (shadingCore d dmin dmax w).2.2 = 0 →
      shade_position_entry (shadingCore d dmin dmax w).1
        (shadingCore d dmin dmax w).2.1 = (0, 100)) := by
  constructor
  · intro tp bp h1 h2 h3 h4
    have e1 : pyInt (tp * 100) = ⌊tp * 100⌋ := by
      unfold pyInt
      rw [if_neg (not_lt.mpr (mul_nonneg h1 (by norm_num)))]
    have e2 : pyInt (bp * 100) = ⌊bp * 100⌋ := by
      unfold pyInt
      rw [if_neg (not_lt.mpr (mul_nonneg h3 (by norm_num)))]
    have f1a : (0 : ℤ) ≤ ⌊tp * 100⌋ :=
      Int.floor_nonneg.mpr (mul_nonneg h1 (by norm_num))
    have f1b : ⌊tp * 100⌋ ≤ 100 := by
      have hh : ((⌊tp * 100⌋ : ℤ) : ℚ) ≤ 100 :=
        le_trans (Int.floor_le _) (by nlinarith)
      exact_mod_cast hh
    have f2a : (0 : ℤ) ≤ ⌊bp * 100⌋ :=
      Int.floor_nonneg.mpr (mul_nonneg h3 (by norm_num))
    have f2b : ⌊bp * 100⌋ ≤ 100 := by
      have hh : ((⌊bp * 100⌋ : ℤ) : ℚ) ≤ 100 :=
        le_trans (Int.floor_le _) (by nlinarith)
      exact_mod_cast hh
    refine ⟨?_, ?_, ?_, ?_, ?_, ?_⟩
    · show pyInt (tp * 100) = ⌊tp * 100⌋
      exact e1
    · show 100 - pyInt (bp * 100) = 100 - ⌊bp * 100⌋
      rw [e2]
    · show (0 : ℤ) ≤ pyInt (tp * 100)
      rw [e1]; exact f1a
    · show pyInt (tp * 100) ≤ 100
      rw [e1]; exact f1b
    · show (0 : ℤ) ≤ 100 - pyInt (bp * 100)
      rw [e2]; omega
    · show 100 - pyInt (bp * 100) ≤ 100
      rw [e2]; omega
  · intro d dmin dmax w h
    rw [shadingCore_zero d dmin dmax w h]
    decide

/-- Witness for C10: the formula part instantiated at topPercent =
bottomPercent = 1/2 and the no-obstruction part at a configuration whose
single ray points away from the desk. -/
theorem published_positions_formula_witness :
    ((shade_position_entry (1/2) (1/2)).1 = ⌊(1/2 : ℚ) * 100⌋ ∧
     (shade_position_entry (1/2) (1/2)).2 = 100 - ⌊(1/2 : ℚ) * 100⌋ ∧
     0 ≤ (shade_position_entry (1/2) (1/2)).1 ∧
     (shade_position_entry (1/2) (1/2)).1 ≤ 100 ∧
     0 ≤ (shade_position_entry (1/2) (1/2)).2 ∧
     (shade_position_entry (1/2) (1/2)).2 ≤ 100) ∧
    shade_position_entry (shadingCore ⟨1, 0, 0⟩ ⟨0, 0, 0⟩ ⟨1, 1, 1⟩ ⟨2, 0, 0, 2, 1, 1⟩).1
      (shadingCore ⟨1, 0, 0⟩ ⟨0, 0, 0⟩ ⟨1, 1, 1⟩ ⟨2, 0, 0, 2, 1, 1⟩).2.1 = (0, 100) :=
  ⟨published_positions_formula.1 (1/2) (1/2) (by norm_num) (by norm_num)
    (by norm_num) (by norm_num),
   published_positions_formula.2 ⟨1, 0, 0⟩ ⟨0, 0, 0⟩ ⟨1, 1, 1⟩ ⟨2, 0, 0, 2, 1, 1⟩
    (by decide)⟩

end Autoshades
